import Mathlib

/-!
Shallow embedding of `src/app_l.py` (Digital_Profile): a Streamlit chatbot
that answers questions about a person via a remote Hugging Face inference
endpoint.  Pure string manipulation is translated directly; the remote
inference call, the PDF/text reads and the client construction are
external effects and are modelled as explicit parameters describing their
outcome.  Python exceptions crossing a boundary are modelled with sum
types; Python truthiness of strings, lists and `None` is modelled by the
corresponding emptiness/`Option` tests.
-/

set_option autoImplicit false

namespace DigitalProfile

/-- A chat message as the code passes it around: a Python dict
with keys "role" and "content" (both strings). -/
structure Turn where
  role : String
  content : String
deriving DecidableEq, Repr

/-- The state a fully initialized `Me` object carries that the prompt
depends on: `self.name`, `self.summary`, `self.linkedin`. -/
structure Persona where
  name : String
  summary : String
  linkedin : String
deriving DecidableEq, Repr

/-- `Me.system_prompt` (src/app_l.py lines 102-112): the exact string the
method builds by f-string interpolation. -/
def systemPrompt (p : Persona) : String :=
  "You are a helpful and professional AI assistant representing " ++ p.name ++ ". "
  ++ "Your goal is to answer questions about " ++ p.name
  ++ "'s career, background, skills, and experience, based on the provided summary and LinkedIn profile. "
  ++ "Be engaging and aim to provide informative answers. "
  ++ "If you cannot answer a question based on the provided context, clearly state that you don't have the specific information. Do not invent answers. "
  ++ "\n\n## Summary for " ++ p.name ++ ":\n" ++ p.summary
  ++ "\n\n## LinkedIn Profile for " ++ p.name ++ ":\n" ++ p.linkedin ++ "\n\n"
  ++ "Based on this information, please chat with the user, always staying in character as an assistant for "
  ++ p.name ++ "."

/-- Line 141: `role = chat_item["role"] if chat_item["role"] in ["user", "assistant"] else "user"`. -/
def normalizeRole (r : String) : String :=
  if r = "user" ∨ r = "assistant" then r else "user"

/-- The history entry as it is appended to `hf_messages` (line 142):
role normalized, content unchanged. -/
def normalizeTurn (t : Turn) : Turn :=
  ⟨normalizeRole t.role, t.content⟩

/-- `Me.chat` lines 134-145: the `hf_messages` list as built by the three
append steps (system prompt, history loop, new user message). -/
def buildMessages (p : Persona) (message : String) (history : List Turn) : List Turn :=
  let hf1 : List Turn := [] ++ [⟨"system", systemPrompt p⟩]
  let hf2 : List Turn :=
    history.foldl (fun acc chatItem =>
      acc ++ [⟨normalizeRole chatItem.role, chatItem.content⟩]) hf1
  hf2 ++ [⟨"user", message⟩]

/-- The `message` field of a choice of the chat-completion response:
`content` may be `None` (modelled `none`) or a string. -/
structure ChoiceMessage where
  content : Option String
deriving DecidableEq, Repr

/-- One element of `response.choices`; its `message` may be `None`. -/
structure Choice where
  message : Option ChoiceMessage
deriving DecidableEq, Repr

/-- The structured object returned by `client.chat_completion`. -/
structure ChatCompletionResponse where
  choices : List Choice
deriving DecidableEq, Repr

/-- Outcome of the remote call at line 149: either a response object or a
raised exception (carrying its rendered message). -/
inductive RemoteOutcome where
  | ok (resp : ChatCompletionResponse)
  | exn (e : String)
deriving DecidableEq, Repr

/-- The characters Python's `str.strip()` removes: `str.isspace` /
CPython's whitespace set. -/
def pyWhitespace : List Char :=
  [' ', '\t', '\n', '\r', '\x0b', '\x0c',
   '\x1c', '\x1d', '\x1e', '\x1f', '\x85', '\xa0',
   '\u1680', '\u2000', '\u2001', '\u2002', '\u2003', '\u2004',
   '\u2005', '\u2006', '\u2007', '\u2008', '\u2009', '\u200a',
   '\u2028', '\u2029', '\u202f', '\u205f', '\u3000']

def pyIsSpace (c : Char) : Bool :=
  pyWhitespace.contains c

/-- Python `s.strip()`: remove leading and trailing whitespace. -/
def pyStrip (s : String) : String :=
  String.mk (((s.toList.dropWhile pyIsSpace).reverse.dropWhile pyIsSpace).reverse)

/-- Lines 157-162: `if response.choices and response.choices[0].message and
response.choices[0].message.content:` take `content.strip()`, else the fixed
empty-response text.  Python truthiness: an empty `choices` list, a `None`
message, a `None` content and an empty-string content are all falsy. -/
def extractReply (resp : ChatCompletionResponse) : String :=
  match resp.choices with
  | [] => "I received a response, but it was empty."
  | choice :: _ =>
    match choice.message with
    | none => "I received a response, but it was empty."
    | some m =>
      match m.content with
      | none => "I received a response, but it was empty."
      | some s =>
        if s = "" then "I received a response, but it was empty."
        else pyStrip s

/-- `Me.chat` (lines 132-188).  The remote endpoint is modelled as a
function `client` from the sent message list to an outcome; the `try`
around the call and the extraction means any raised exception yields the
fixed apology string (line 188). -/
def chat (p : Persona) (client : List Turn → RemoteOutcome)
    (message : String) (history : List Turn) : String :=
  match client (buildMessages p message history) with
  | RemoteOutcome.exn _ =>
      "Sorry, I encountered an error while trying to process your request with the Llama model."
  | RemoteOutcome.ok resp => extractReply resp

/-- `main` lines 214-233, one submitted prompt: append the user turn to
`st.session_state.messages`, take `history_for_bot = messages[:-1]`, call
`me.chat`, append the reply as the assistant turn.  (The inner
`try`/`except` around `me.chat` is dead for a total `chat`; `chat` never
raises.) -/
def mainTurn (p : Persona) (client : List Turn → RemoteOutcome)
    (messages : List Turn) (prompt : String) : List Turn :=
  let messages1 := messages ++ [⟨"user", prompt⟩]
  let historyForBot := messages1.dropLast
  let botResponse := chat p client prompt historyForBot
  messages1 ++ [⟨"assistant", botResponse⟩]

/-- Outcome of one external read in `Me.__init__`: success carrying the
read data, a `FileNotFoundError`, or any other exception. -/
inductive ReadOutcome (α : Type) where
  | ok (v : α)
  | fileNotFound
  | otherError (e : String)
deriving DecidableEq, Repr

/-- Lines 79-90: build `self.linkedin` from the PDF read outcome.  On
success the pages' extracted texts are concatenated in page order, a page
contributing only when `extract_text()` returned a truthy (non-`None`,
non-empty) string; on `FileNotFoundError` / other exceptions the two
fixed placeholders are substituted. -/
def loadLinkedin (pdfRead : ReadOutcome (List (Option String))) : String :=
  match pdfRead with
  | ReadOutcome.ok pages =>
      pages.foldl (fun acc text =>
        match text with
        | some t => if t = "" then acc else acc ++ t
        | none => acc) ""
  | ReadOutcome.fileNotFound => "LinkedIn profile information is currently unavailable."
  | ReadOutcome.otherError _ => "Error reading LinkedIn profile."

/-- Lines 92-100: build `self.summary` from the text-file read outcome. -/
def loadSummary (txtRead : ReadOutcome String) : String :=
  match txtRead with
  | ReadOutcome.ok s => s
  | ReadOutcome.fileNotFound => "Summary information is currently unavailable."
  | ReadOutcome.otherError _ => "Error reading summary information."

/-- `Me.__init__` (lines 58-100).  The `InferenceClient` construction is an
external effect whose outcome is a parameter; if it raises, the handler
calls `st.stop()` and no object is produced (`none`).  Otherwise the two
document reads each produce a string (placeholder on failure) and
initialization completes with the persona state. -/
def initMe (clientInit : Except String Unit)
    (pdfRead : ReadOutcome (List (Option String)))
    (txtRead : ReadOutcome String) : Option Persona :=
  match clientInit with
  | Except.error _ => none
  | Except.ok _ => some ⟨"Ganesh Neelakanta", loadSummary txtRead, loadLinkedin pdfRead⟩

/-- `record_user_details` (lines 43-48): the returned dict, as an ordered
key/value list.  The Pushover/console side effects do not affect the
return value. -/
def record_user_details (email : String) (name : String) (notes : String) :
    List (String × String) :=
  [("recorded", "ok"), ("status", "Details for " ++ email ++ " noted.")]

/-- `record_unknown_question` (lines 50-55): the returned dict. -/
def record_unknown_question (question : String) : List (String × String) :=
  [("recorded", "ok"), ("status", "Question '" ++ question ++ "' recorded.")]

/-- The keyword-argument dict passed to `handle_tool_call`, restricted to
the keys the two registered tools accept. -/
structure ToolArgs where
  email : Option String
  name : Option String
  notes : Option String
  question : Option String
deriving DecidableEq, Repr

/-- `Me.handle_tool_call` (lines 114-130): exact-name dispatch to the two
tools via `**function_args_dict`, else the structured unknown-tool dict.
`none` models a Python `TypeError` from `**kwargs` not matching the
callee's signature (missing required argument or unexpected keyword);
line 126 requires `email` present and no `question` key, line 128 requires
exactly the `question` key. -/
def handle_tool_call (function_name : String) (args : ToolArgs) :
    Option (List (String × String)) :=
  if function_name = "record_user_details" then
    match args.email, args.question with
    | some e, none =>
        some (record_user_details e (args.name.getD "Name not provided")
          (args.notes.getD "not provided"))
    | _, _ => none
  else if function_name = "record_unknown_question" then
    match args.question, args.email, args.name, args.notes with
    | some q, none, none, none => some (record_unknown_question q)
    | _, _, _, _ => none
  else
    some [("error", "Unknown tool: " ++ function_name), ("status", "Tool not found.")]

/-- Substring test, used to state "status contains the email". -/
def strContainsSub (s pat : String) : Bool :=
  (List.range (s.length + 1)).any fun i => pat.toList.isPrefixOf (s.toList.drop i)

/-- What running the module top level can end in: an uncaught `NameError`
(an unbound name was evaluated), a halt via `st.error` + `st.stop` with a
visible message, or normal continuation into the app. -/
inductive StartupOutcome where
  | raisedNameError (name : String)
  | haltedWithError (msg : String)
  | started
deriving DecidableEq, Repr

/-- The module top level of src/app_l.py, lines 13-19, as written.  The
comment at line 15 says "Load Hugging Face Token" but no assignment to
`HUGGING_FACE_HUB_TOKEN` follows it, so the guard at line 17
(`if not HUGGING_FACE_HUB_TOKEN:`) evaluates an unbound name and Python
raises `NameError` — for every environment, whether or not the token is
set. -/
def moduleStartup (_env : String → Option String) : StartupOutcome :=
  StartupOutcome.raisedNameError "HUGGING_FACE_HUB_TOKEN"

/-- Modelled from the spec: the intended startup guard, as the spec (and
the code's own line-15 comment and lines 17-19) describe it — read the
`HUGGING_FACE_HUB_TOKEN` environment variable; if it is missing or empty
(Python falsy), halt with the visible `st.error` message; otherwise
continue.  This definition follows the spec's words and exists to be
compared with `moduleStartup`, the code as written. -/
def specIntendedStartup (env : String → Option String) : StartupOutcome :=
  match env "HUGGING_FACE_HUB_TOKEN" with
  | none =>
      StartupOutcome.haltedWithError
        "HUGGING_FACE_HUB_TOKEN not found in environment variables. Please set it in your .env file."
  | some t =>
      if t = "" then
        StartupOutcome.haltedWithError
          "HUGGING_FACE_HUB_TOKEN not found in environment variables. Please set it in your .env file."
      else StartupOutcome.started

/-! ### Concrete fixtures used by witnesses and counterexamples -/

/-- A concrete persona for instantiating the theorems. -/
def pc : Persona := ⟨"Ganesh Neelakanta", "Test summary.", "Test profile."⟩

/-- A remote endpoint that always produces the given outcome. -/
def clientOf (r : RemoteOutcome) : List Turn → RemoteOutcome := fun _ => r

/-- A successful response whose only choice's content is whitespace. -/
def respWsOnly : ChatCompletionResponse := ⟨[⟨some ⟨some "   "⟩⟩]⟩

/-- A successful response whose content has surrounding whitespace. -/
def respPadded : ChatCompletionResponse := ⟨[⟨some ⟨some "  5 years in X.  "⟩⟩]⟩

/-- The successful response of the spec's end-to-end scenario. -/
def resp5 : ChatCompletionResponse := ⟨[⟨some ⟨some "5 years in X."⟩⟩]⟩

/-- A response with an empty `choices` list. -/
def respNoChoices : ChatCompletionResponse := ⟨[]⟩

/-! ### Helper lemmas -/

lemma foldl_append_turns (H : List Turn) : ∀ acc : List Turn,
    H.foldl (fun acc chatItem =>
        acc ++ [⟨normalizeRole chatItem.role, chatItem.content⟩]) acc
      = acc ++ H.map normalizeTurn := by
  induction H with
  | nil => intro acc; simp
  | cons t ts ih =>
      intro acc
      simp only [List.foldl_cons, List.map_cons, ih, normalizeTurn, List.append_assoc,
        List.singleton_append]

lemma buildMessages_eq (p : Persona) (M : String) (H : List Turn) :
    buildMessages p M H
      = ⟨"system", systemPrompt p⟩ :: (H.map normalizeTurn ++ [⟨"user", M⟩]) := by
  simp only [buildMessages, foldl_append_turns]
  simp

lemma stringMk_eq_empty_iff (l : List Char) : String.mk l = "" ↔ l = [] := by
  constructor
  · intro h; exact congrArg String.data h
  · intro h; rw [h]

lemma forall_dropWhile_iff {α : Type} (p : α → Bool) (l : List α) :
    (∀ x ∈ l.dropWhile p, p x) ↔ ∀ x ∈ l, p x := by
  constructor
  · intro h x hx
    rw [← List.takeWhile_append_dropWhile p l] at hx
    rcases List.mem_append.mp hx with h1 | h2
    · exact List.mem_takeWhile_imp h1
    · exact h x h2
  · intro h x hx
    exact h x ((List.dropWhile_sublist p).mem hx)

lemma specIntendedStartup_cases (env : String → Option String) :
    specIntendedStartup env = StartupOutcome.started
    ∨ specIntendedStartup env
        = StartupOutcome.haltedWithError
            "HUGGING_FACE_HUB_TOKEN not found in environment variables. Please set it in your .env file." := by
  unfold specIntendedStartup
  cases env "HUGGING_FACE_HUB_TOKEN" with
  | none => exact Or.inr rfl
  | some t =>
      by_cases ht : t = ""
      · exact Or.inr (by simp [ht])
      · exact Or.inl (by simp [ht])

lemma pyStrip_eq_empty_iff (s : String) :
    pyStrip s = "" ↔ ∀ x ∈ s.toList, pyIsSpace x := by
  unfold pyStrip
  rw [stringMk_eq_empty_iff, List.reverse_eq_nil_iff, List.dropWhile_eq_nil_iff]
  simp only [List.mem_reverse]
  exact forall_dropWhile_iff pyIsSpace s.toList

/-! ### Claim C1 -/

/-- Claim C1, counterexample: the claim says `Me.chat` always returns a
non-empty string, but with empty history, message "What is your
experience?", and a remote call that succeeds with whitespace-only content
"   ", `chat` returns the empty string (line 159 applies `.strip()` to the
content). -/
theorem c1_counterexample :
    chat pc (clientOf (RemoteOutcome.ok respWsOnly)) "What is your experience?" [] = "" := by
  decide

/-- Claim C1, amended: for every history H, message M and remote behaviour,
`Me.chat` returns a string and never raises past its boundary (the
embedding is a total function), and the returned string is empty only in
the single case where the remote call succeeded and the first choice's
content was a non-empty string consisting entirely of whitespace; in every
other case the result is non-empty. -/
theorem c1_chat_empty_only_for_whitespace
    (p : Persona) (client : List Turn → RemoteOutcome) (M : String) (H : List Turn)
    (h : chat p client M H = "") :
    ∃ resp choice rest m c,
      client (buildMessages p M H) = RemoteOutcome.ok resp
      ∧ resp.choices = choice :: rest
      ∧ choice.message = some m
      ∧ m.content = some c
      ∧ c ≠ ""
      ∧ ∀ x ∈ c.toList, pyIsSpace x := by
  simp only [chat] at h
  cases hcl : client (buildMessages p M H) with
  | exn e =>
      simp only [hcl] at h
      exact absurd h (by decide)
  | ok resp =>
      simp only [hcl, extractReply] at h
      cases hch : resp.choices with
      | nil =>
          simp only [hch] at h
          exact absurd h (by decide)
      | cons choice rest =>
          simp only [hch] at h
          cases hm : choice.message with
          | none =>
              simp only [hm] at h
              exact absurd h (by decide)
          | some m =>
              simp only [hm] at h
              cases hc : m.content with
              | none =>
                  simp only [hc] at h
                  exact absurd h (by decide)
              | some c =>
                  simp only [hc] at h
                  by_cases hce : c = ""
                  · rw [if_pos hce] at h
                    exact absurd h (by decide)
                  · rw [if_neg hce] at h
                    exact ⟨resp, choice, rest, m, c, rfl, hch, hm, hc, hce,
                      (pyStrip_eq_empty_iff c).mp h⟩

/-- Claim C1, witness: the amended theorem applied at a concrete input
where `chat` does return the empty string. -/
theorem c1_witness :
    ∃ resp choice rest m c,
      clientOf (RemoteOutcome.ok respWsOnly) (buildMessages pc "What is your experience?" [])
        = RemoteOutcome.ok resp
      ∧ resp.choices = choice :: rest
      ∧ choice.message = some m
      ∧ m.content = some c
      ∧ c ≠ ""
      ∧ ∀ x ∈ c.toList, pyIsSpace x :=
  c1_chat_empty_only_for_whitespace pc (clientOf (RemoteOutcome.ok respWsOnly))
    "What is your experience?" [] (by decide)

/-! ### Claim C2 -/

/-- Claim C2 (code bug): line 17 evaluates `HUGGING_FACE_HUB_TOKEN`, a name
the module never assigns (the assignment announced by the line-15 comment
is missing), so the top level raises `NameError` for every environment —
including those where the token is set — and the `st.error`/`st.stop`
guard of lines 17-19 never runs.  The code therefore never produces the
spec-intended outcome for any environment. -/
theorem c2_startup_raises_name_error (env : String → Option String) :
    moduleStartup env = StartupOutcome.raisedNameError "HUGGING_FACE_HUB_TOKEN"
    ∧ moduleStartup env ≠ specIntendedStartup env
    ∧ specIntendedStartup (fun _ => none)
        = StartupOutcome.haltedWithError
            "HUGGING_FACE_HUB_TOKEN not found in environment variables. Please set it in your .env file." := by
  refine ⟨rfl, ?_, rfl⟩
  rcases specIntendedStartup_cases env with h | h <;> simp [moduleStartup, h]

/-! ### Claim C3 -/

/-- Claim C3: if the remote inference call raises, `chat` returns exactly
the fixed apology string, and the turn handler in `main` appends both the
user's message and this apology (as the assistant turn) to the
transcript. -/
theorem c3_transport_error_apology
    (p : Persona) (client : List Turn → RemoteOutcome) (msgs : List Turn)
    (prompt e : String)
    (hclient : ∀ ms, client ms = RemoteOutcome.exn e) :
    chat p client prompt msgs
        = "Sorry, I encountered an error while trying to process your request with the Llama model."
    ∧ mainTurn p client msgs prompt
        = msgs ++ [⟨"user", prompt⟩,
            ⟨"assistant",
              "Sorry, I encountered an error while trying to process your request with the Llama model."⟩] := by
  have hchat : ∀ hist : List Turn,
      chat p client prompt hist
        = "Sorry, I encountered an error while trying to process your request with the Llama model." := by
    intro hist
    unfold chat
    rw [hclient]
  refine ⟨hchat msgs, ?_⟩
  simp only [mainTurn, hchat]
  simp

/-- Claim C3, witness: concrete transcript before and after a failing
turn. -/
theorem c3_witness :
    chat pc (clientOf (RemoteOutcome.exn "boom")) "hi" []
        = "Sorry, I encountered an error while trying to process your request with the Llama model."
    ∧ mainTurn pc (clientOf (RemoteOutcome.exn "boom")) [] "hi"
        = [] ++ [⟨"user", "hi"⟩,
            ⟨"assistant",
              "Sorry, I encountered an error while trying to process your request with the Llama model."⟩] :=
  c3_transport_error_apology pc (clientOf (RemoteOutcome.exn "boom")) [] "hi" "boom"
    (fun _ => rfl)

/-! ### Claim C4 -/

/-- Claim C4: the message sequence `chat` builds and sends has the system
prompt as its first element, then the history entries in their original
order (roles normalized as at line 141), then the new user message as the
last element; the history entries' contents are forwarded unchanged and in
order. -/
theorem c4_message_sequence_order (p : Persona) (M : String) (H : List Turn) :
    buildMessages p M H
        = ⟨"system", systemPrompt p⟩ :: (H.map normalizeTurn ++ [⟨"user", M⟩])
    ∧ (buildMessages p M H).head? = some ⟨"system", systemPrompt p⟩
    ∧ (buildMessages p M H).getLast? = some ⟨"user", M⟩
    ∧ ((buildMessages p M H).drop 1).dropLast.map Turn.content = H.map Turn.content := by
  have hb := buildMessages_eq p M H
  refine ⟨hb, ?_, ?_, ?_⟩
  · rw [hb]; rfl
  · rw [hb, ← List.cons_append]
    exact List.getLast?_concat _
  · rw [hb]
    simp [List.dropLast_concat, List.map_map, normalizeTurn, Function.comp_def]

/-! ### Claim C5 -/

/-- Claim C5: within the sequence sent onward, every history entry whose
role is neither "user" nor "assistant" (e.g. "system") is sent with role
"user" and content unchanged; entries with role "user" or "assistant" keep
their role; the relative order of entries is preserved (the forwarded
middle section is exactly `H.map normalizeTurn`). -/
theorem c5_role_normalization (p : Persona) (M : String) (H : List Turn) :
    ((buildMessages p M H).drop 1).dropLast = H.map normalizeTurn
    ∧ ∀ t ∈ H, (normalizeTurn t).content = t.content
        ∧ ((t.role = "user" ∨ t.role = "assistant") → (normalizeTurn t).role = t.role)
        ∧ (t.role ≠ "user" → t.role ≠ "assistant" → (normalizeTurn t).role = "user") := by
  constructor
  · rw [buildMessages_eq]
    simp [List.dropLast_concat]
  · intro t _
    refine ⟨rfl, ?_, ?_⟩
    · intro hr
      show normalizeRole t.role = t.role
      unfold normalizeRole
      rw [if_pos hr]
    · intro h1 h2
      show normalizeRole t.role = "user"
      unfold normalizeRole
      exact if_neg (fun hc => hc.elim h1 h2)

/-- Claim C5, witness: a "system"-role history entry is forwarded with role
"user". -/
theorem c5_witness :
    (normalizeTurn ⟨"system", "be brief"⟩).role = "user" :=
  ((c5_role_normalization pc "hi" [⟨"system", "be brief"⟩]).2 ⟨"system", "be brief"⟩
      (List.mem_singleton.mpr rfl)).2.2 (by decide) (by decide)

/-! ### Claim C6 -/

/-- Claim C6: when the successful response carries no usable content — no
choices, a `None` message in the first choice, or `None`/empty content —
`chat` returns exactly the fixed empty-response text. -/
theorem c6_empty_response (p : Persona) (client : List Turn → RemoteOutcome)
    (M : String) (H : List Turn) (resp : ChatCompletionResponse)
    (hclient : client (buildMessages p M H) = RemoteOutcome.ok resp)
    (hempty : resp.choices = []
      ∨ ∃ choice rest, resp.choices = choice :: rest
          ∧ (choice.message = none
             ∨ ∃ m, choice.message = some m ∧ (m.content = none ∨ m.content = some ""))) :
    chat p client M H = "I received a response, but it was empty." := by
  simp only [chat, hclient, extractReply]
  rcases hempty with hch | ⟨choice, rest, hch, hrest⟩
  · simp only [hch]
  · simp only [hch]
    rcases hrest with hm | ⟨m, hm, hc⟩
    · simp only [hm]
    · simp only [hm]
      rcases hc with hc | hc
      · simp only [hc]
      · simp only [hc]
        simp

/-- Claim C6, witness: a response with an empty `choices` list yields the
fixed empty-response text. -/
theorem c6_witness :
    chat pc (clientOf (RemoteOutcome.ok respNoChoices)) "hi" []
      = "I received a response, but it was empty." :=
  c6_empty_response pc (clientOf (RemoteOutcome.ok respNoChoices)) "hi" [] respNoChoices
    rfl (Or.inl rfl)

/-! ### Claim C7 -/

/-- Claim C7: with an empty history the sequence built has exactly length 2
(roles "system" then "user"); when the remote call succeeds with reply
content "5 years in X.", `chat` returns exactly that string and the turn
handler appends it to the transcript as the assistant turn. -/
theorem c7_end_to_end (p : Persona) (client : List Turn → RemoteOutcome) (prompt : String)
    (hclient : client (buildMessages p prompt []) = RemoteOutcome.ok resp5) :
    (buildMessages p prompt []).length = 2
    ∧ (buildMessages p prompt []).map Turn.role = ["system", "user"]
    ∧ chat p client prompt [] = "5 years in X."
    ∧ mainTurn p client [] prompt
        = [⟨"user", prompt⟩, ⟨"assistant", "5 years in X."⟩] := by
  have hextract : extractReply resp5 = "5 years in X." := by decide
  have hchat : chat p client prompt [] = "5 years in X." := by
    simp only [chat, hclient]
    exact hextract
  refine ⟨?_, ?_, hchat, ?_⟩
  · rw [buildMessages_eq]; rfl
  · rw [buildMessages_eq]; rfl
  · simp only [mainTurn, List.nil_append, List.dropLast_single, hchat]
    rfl

/-- Claim C7, witness: the end-to-end scenario at the spec's concrete
message. -/
theorem c7_witness :
    (buildMessages pc "What is your experience?" []).length = 2
    ∧ (buildMessages pc "What is your experience?" []).map Turn.role = ["system", "user"]
    ∧ chat pc (clientOf (RemoteOutcome.ok resp5)) "What is your experience?" [] = "5 years in X."
    ∧ mainTurn pc (clientOf (RemoteOutcome.ok resp5)) [] "What is your experience?"
        = [⟨"user", "What is your experience?"⟩, ⟨"assistant", "5 years in X."⟩] :=
  c7_end_to_end pc (clientOf (RemoteOutcome.ok resp5)) "What is your experience?" rfl

/-! ### Claim C8 -/

/-- Claim C8: document loading in `Me.__init__` is total — a missing résumé
PDF yields the fixed placeholder for `self.linkedin`, any other read
failure yields the distinct "error reading" placeholder, likewise for the
summary text file, and (given the client construction succeeded, which the
document reads do not depend on) initialization completes with those
values. -/
theorem c8_document_loading (e1 e2 : String)
    (pdfRead : ReadOutcome (List (Option String))) (txtRead : ReadOutcome String) :
    loadLinkedin ReadOutcome.fileNotFound
        = "LinkedIn profile information is currently unavailable."
    ∧ loadLinkedin (ReadOutcome.otherError e1) = "Error reading LinkedIn profile."
    ∧ loadSummary ReadOutcome.fileNotFound = "Summary information is currently unavailable."
    ∧ loadSummary (ReadOutcome.otherError e2) = "Error reading summary information."
    ∧ initMe (Except.ok ()) pdfRead txtRead
        = some ⟨"Ganesh Neelakanta", loadSummary txtRead, loadLinkedin pdfRead⟩ :=
  ⟨rfl, rfl, rfl, rfl, rfl⟩

/-! ### Claim C9 -/

/-- Claim C9: dispatching "record_user_details" with only an email argument
returns the dict with recorded = "ok" and a status string containing the
email; dispatching any name other than the two registered tools returns
the structure whose "error" field names the unknown tool. -/
theorem c9_tool_dispatch (n : String)
    (h1 : n ≠ "record_user_details") (h2 : n ≠ "record_unknown_question") :
    handle_tool_call "record_user_details" ⟨some "a@b.com", none, none, none⟩
        = some [("recorded", "ok"), ("status", "Details for a@b.com noted.")]
    ∧ strContainsSub "Details for a@b.com noted." "a@b.com" = true
    ∧ handle_tool_call n ⟨none, none, none, none⟩
        = some [("error", "Unknown tool: " ++ n), ("status", "Tool not found.")] := by
  refine ⟨by decide, by decide, ?_⟩
  unfold handle_tool_call
  rw [if_neg h1, if_neg h2]

/-- Claim C9, witness: dispatch at the unknown name "unknown_tool". -/
theorem c9_witness :
    handle_tool_call "record_user_details" ⟨some "a@b.com", none, none, none⟩
        = some [("recorded", "ok"), ("status", "Details for a@b.com noted.")]
    ∧ strContainsSub "Details for a@b.com noted." "a@b.com" = true
    ∧ handle_tool_call "unknown_tool" ⟨none, none, none, none⟩
        = some [("error", "Unknown tool: " ++ "unknown_tool"), ("status", "Tool not found.")] :=
  c9_tool_dispatch "unknown_tool" (by decide) (by decide)

/-! ### Claim C10 -/

/-- Claim C10: on a successful response whose first choice carries
non-empty content c, `chat` returns c with leading and trailing whitespace
stripped (not c verbatim); in particular, when c consists only of
whitespace characters, `chat` returns the empty string. -/
theorem c10_chat_strips_content
    (p : Persona) (client : List Turn → RemoteOutcome) (M : String) (H : List Turn)
    (resp : ChatCompletionResponse) (choice : Choice) (rest : List Choice)
    (m : ChoiceMessage) (c : String)
    (hclient : client (buildMessages p M H) = RemoteOutcome.ok resp)
    (hch : resp.choices = choice :: rest)
    (hm : choice.message = some m)
    (hc : m.content = some c)
    (hce : c ≠ "") :
    chat p client M H = pyStrip c
    ∧ ((∀ x ∈ c.toList, pyIsSpace x) → chat p client M H = "") := by
  have hmain : chat p client M H = pyStrip c := by
    simp only [chat, hclient, extractReply, hch, hm, hc]
    rw [if_neg hce]
  exact ⟨hmain, fun hws => hmain.trans ((pyStrip_eq_empty_iff c).mpr hws)⟩

/-- Claim C10, witness: padded content "  5 years in X.  " comes back
stripped, not verbatim. -/
theorem c10_witness :
    chat pc (clientOf (RemoteOutcome.ok respPadded)) "Tell me." [] = "5 years in X." :=
  ((c10_chat_strips_content pc (clientOf (RemoteOutcome.ok respPadded)) "Tell me." []
      respPadded ⟨some ⟨some "  5 years in X.  "⟩⟩ [] ⟨some "  5 years in X.  "⟩
      "  5 years in X.  " rfl rfl rfl rfl (by decide)).1).trans (by decide)

end DigitalProfile
